import Mathlib

/-
Shallow embedding of the second-brain ingestion / semantic-deduplication core.

Python floats are modelled as real numbers; embedding vectors as `List ℝ`.
External collaborators (Bedrock, OpenAI, S3 Vectors, DynamoDB) are passed in
as explicit function parameters; DynamoDB / S3 writes are recorded as explicit
effect values.  Fallible Python code (raising exceptions) is modelled with
`Except Unit`.

Sources embedded here:
  src/packages/lambdas/src/lambdas/embedding_matcher.py   (namespace Matcher)
  src/packages/lambdas/task_linker/linker.py,
    similarity.py, task_store.py, embeddings.py           (namespace TaskLinker)
  src/packages/lambdas/src/lambdas/events.py              (namespace Events)
  src/packages/lambdas/src/lambdas/actions/process.py     (namespace Process)
-/

open Classical

/-- Embedding vectors: Python `list[float]` as a list of reals. -/
abbrev Vec := List ℝ

/-- Python `sum(a * b for a, b in zip(vec_a, vec_b))`. -/
def dotProd (a b : Vec) : ℝ := (List.zipWith (fun x y => x * y) a b).sum

/-- Python `sum(a * a for a in vec)` : the squared Euclidean norm. -/
def sumSq (a : Vec) : ℝ := (a.map fun x => x * x).sum

/-- Python truthiness of an optional string: `None` and the empty string are
falsy, every other string is truthy. -/
def optStrTruthy : Option String → Bool
  | none => false
  | some s => s != ""

/-- Python `str.lower()` (ASCII case), mapping each character to its
lowercase form. -/
def pyLower (s : String) : String := ⟨s.data.map Char.toLower⟩

namespace Matcher

/-- embedding_matcher.cosine_similarity: guarded cosine.  Returns `0.0` when
either vector is empty or when the product of the norms is zero, else
`dot / (norm_a * norm_b)`. -/
noncomputable def cosine_similarity (vec_a vec_b : Vec) : ℝ :=
  if vec_a = [] ∨ vec_b = [] then 0
  else if Real.sqrt (sumSq vec_a) * Real.sqrt (sumSq vec_b) = 0 then 0
  else dotProd vec_a vec_b
    / (Real.sqrt (sumSq vec_a) * Real.sqrt (sumSq vec_b))

/-- embedding_matcher.embed_text returns `[0.0] * 1536` for empty text. -/
def zeroVec : Vec := List.replicate 1536 (0 : ℝ)

/-- One hit of the S3 Vectors `query_vectors` response: `best_hit.get("score",
0.0)` means the score may be absent, and the metadata fields `pk` / `sk` are
read with `metadata.get`, so all three are optional. -/
structure Hit where
  score : Option ℝ
  pk : Option String
  sk : Option String

/-- A DynamoDB item of the second-brain table as written by `create_item`
(`serialize_embedding`, which maps each float through `Decimal(str(x))`, is
modelled as the identity on the vector).  An absent `embedding` attribute is
modelled as the empty list, matching `similar_item.get("embedding", [])`. -/
structure Item where
  PK : String
  SK : String
  created_at : String
  updated_at : Option String := none
  status : String
  name : Option String := none
  next_action : Option String := none
  notes : Option String := none
  original_text : String
  confidence : Int := 0
  category : String
  embedding : Vec := []

/-- The classified-record dict flowing into `save_with_embedding_matching`:
`category` and `original_text` are accessed with `[]` (required), the rest
with `.get` (optional, hence `Option` / a default). -/
structure ItemData where
  category : String
  name : Option String := none
  status : Option String := none
  next_action : Option String := none
  notes : Option String := none
  original_text : String
  confidence : Int := 0
deriving DecidableEq

/-- A write performed against DynamoDB or the S3 Vectors index. -/
inductive Effect where
  | putItem (item : Item)
  | indexVector (pk sk : String) (embedding : Vec)
      (category name status : String)
  | updateItem (pk sk : String) (status : String)
      (next_action notes : Option String) (updated_at original_text : String)

/-- The status value a write stores: the item's status attribute for a
put_item, the metadata status for an index write, and the SET value for an
update. -/
def effectStatus : Effect → String
  | .putItem item => item.status
  | .indexVector _ _ _ _ _ status => status
  | .updateItem _ _ status _ _ _ _ => status

/-- External collaborators of embedding_matcher.py: the Bedrock and OpenAI
embedding providers (either may raise), the S3 Vectors `query_vectors` call
(keyed by the category filter and the query vector; may raise `ClientError`),
and the DynamoDB `get_item` lookup keyed by PK and SK. -/
structure Env where
  bedrock : String → Except Unit Vec
  openai : String → Except Unit Vec
  queryVectors : String → Vec → Except Unit (List Hit)
  getItem : String → String → Option Item

/-- embedding_matcher.embed_text: empty text maps to the zero vector without
calling any provider; otherwise Bedrock is tried first and on any exception
the call falls back to OpenAI (whose failure propagates).
`get_env("BEDROCK_REGION", required=True)` is assumed configured. -/
def embed_text (env : Env) (text : String) : Except Unit Vec :=
  if text = "" then .ok zeroVec
  else
    match env.bedrock text with
    | .ok v => .ok v
    | .error _ => env.openai text

/-- embedding_matcher.find_similar_item: query S3 Vectors (top-K 5, filtered
to the category); on no hits return `none`; take the first hit, read its
score with default `0.0`; if `score >= threshold` and the metadata has truthy
`pk` and `sk` and the table lookup finds the item, return it; in every other
fall-through return `none`.  A `query_vectors` failure propagates. -/
noncomputable def find_similar_item (env : Env) (category : String)
    (message_embedding : Vec) (threshold : ℝ) : Except Unit (Option Item) :=
  match env.queryVectors category message_embedding with
  | .error e => .error e
  | .ok hits =>
    match hits with
    | [] => .ok none
    | best_hit :: _ =>
      let score := best_hit.score.getD 0
      if score ≥ threshold then
        match best_hit.pk, best_hit.sk with
        | some pk, some sk =>
          if pk = "" ∨ sk = "" then .ok none
          else
            match env.getItem pk sk with
            | some item => .ok (some item)
            | none => .ok none
        | _, _ => .ok none
      else .ok none

/-- embedding_matcher.update_item: a DynamoDB `update_item` whose
UpdateExpression is exactly
`SET status, next_action, notes, updated_at, original_text`. -/
def update_item (pk sk : String) (item_data : ItemData)
    (timestamp original_text : String) : Effect :=
  .updateItem pk sk (item_data.status.getD "open") item_data.next_action
    item_data.notes timestamp original_text

/-- DynamoDB semantics of the `update_item` UpdateExpression applied to a
stored item: the five SET attributes are replaced, everything else (and the
key) is untouched. -/
def apply_update_item (item : Item) (status : String)
    (next_action notes : Option String)
    (updated_at original_text : String) : Item :=
  { item with
    status := status
    next_action := next_action
    notes := notes
    updated_at := some updated_at
    original_text := original_text }

/-- embedding_matcher.create_item: builds
`sk = timestamp + "#" + category + "#" + str(hash(original_text) % 10000)`
(the Python `hash` of the original text is passed in as `hash_original`,
since it is an unspecified per-process integer), writes the item with
`put_item`, indexes the vector, and returns the sort key. -/
def create_item (item_data : ItemData) (timestamp : String)
    (hash_original : Int) (embedding : Vec) : String × List Effect :=
  let sk := timestamp ++ "#" ++ item_data.category ++ "#"
      ++ toString (hash_original % 10000)
  let item : Item :=
    { PK := "CATEGORY#" ++ item_data.category
      SK := sk
      created_at := timestamp
      updated_at := none
      status := item_data.status.getD "open"
      name := item_data.name
      next_action := item_data.next_action
      notes := item_data.notes
      original_text := item_data.original_text
      confidence := item_data.confidence
      category := item_data.category
      embedding := embedding }
  (sk, [Effect.putItem item,
        Effect.indexVector item.PK sk embedding item_data.category
          (item_data.name.getD "") (item_data.status.getD "open")])

/-- Result dict of `save_with_embedding_matching`; the `status` key is only
added afterwards by `save_to_dynamodb_with_embedding`. -/
structure SaveResult where
  action : String
  sk : String
  similarity : ℝ
  category : String
  status : Option String := none

/-- embedding_matcher.save_with_embedding_matching.  Returns the result (or
the propagated exception) together with the list of writes that were
performed before returning/raising. -/
noncomputable def save_with_embedding_matching (env : Env)
    (item_data : ItemData) (similarity_threshold : ℝ)
    (timestamp : String) (hash_original : Int) :
    Except Unit SaveResult × List Effect :=
  if optStrTruthy item_data.name = false then
    let r := create_item item_data timestamp hash_original zeroVec
    (.ok { action := "created", sk := r.1, similarity := 0,
           category := item_data.category }, r.2)
  else
    match embed_text env (item_data.name.getD "") with
    | .error e => (.error e, [])
    | .ok embedding =>
      match find_similar_item env item_data.category embedding
          similarity_threshold with
      | .error e => (.error e, [])
      | .ok (some similar_item) =>
        let upd := update_item similar_item.PK similar_item.SK item_data
          timestamp item_data.original_text
        let similarity :=
          if similar_item.embedding = [] then (0 : ℝ)
          else cosine_similarity embedding similar_item.embedding
        (.ok { action := "updated", sk := similar_item.SK,
               similarity := similarity, category := item_data.category },
         [upd])
      | .ok none =>
        let r := create_item item_data timestamp hash_original embedding
        (.ok { action := "created", sk := r.1, similarity := 0,
               category := item_data.category }, r.2)

/-- embedding_matcher.derive_status: fixed keyword mapping on the lowercased
action, defaulting to "open". -/
def derive_status (action : String) : String :=
  match pyLower action with
  | "start" => "in_progress"
  | "started" => "in_progress"
  | "done" => "completed"
  | "complete" => "completed"
  | _ => "open"

/-- embedding_matcher.save_to_dynamodb_with_embedding: overwrites
`item_data["status"]` with `derive_status(action)` (the Python default for
`action` is "open"), delegates to `save_with_embedding_matching`, and adds
the derived status to the result dict. -/
noncomputable def save_to_dynamodb_with_embedding (env : Env)
    (item_data : ItemData) (action : String) (similarity_threshold : ℝ)
    (timestamp : String) (hash_original : Int) :
    Except Unit SaveResult × List Effect :=
  let item_data2 := { item_data with status := some (derive_status action) }
  let r := save_with_embedding_matching env item_data2 similarity_threshold
    timestamp hash_original
  (match r.1 with
   | .error e => .error e
   | .ok res => .ok { res with status := some (derive_status action) }, r.2)

end Matcher

namespace TaskLinker

/-- task_linker/similarity.cosine_similarity: NO zero-norm guard.  Python
raises `ZeroDivisionError` when `norm_a * norm_b == 0`; that exceptional
outcome is modelled as `none`. -/
noncomputable def cosine_similarity (vec_a vec_b : Vec) : Option ℝ :=
  if Real.sqrt (sumSq vec_a) * Real.sqrt (sumSq vec_b) = 0 then none
  else some (dotProd vec_a vec_b
    / (Real.sqrt (sumSq vec_a) * Real.sqrt (sumSq vec_b)))

/-- A task item of the second-brain table as written by
`task_store.create_task` and read back by `list_open_tasks`.  An absent
`embedding` attribute is modelled as the empty list, matching the loop guard
`if not t.get("embedding"): continue`. -/
structure TaskItem where
  PK : String
  SK : String
  taskId : String
  entityType : String := "Task"
  name : String
  status : String
  embedding : Vec := []
  createdAt : String

/-- A write performed by the task linker against DynamoDB. -/
inductive TaskEffect where
  | updateStatus (pk sk newStatus : String)
  | putTask (item : TaskItem)

/-- task_store.make_task_keys. -/
def make_task_keys (user_id task_id : String) : String × String :=
  ("USER#" ++ user_id, "TASK#" ++ task_id)

/-- task_store.update_task_status: `SET #s = :s` on the task keys. -/
def update_task_status (user_id task_id new_status : String) : TaskEffect :=
  .updateStatus (make_task_keys user_id task_id).1
    (make_task_keys user_id task_id).2 new_status

/-- task_store.create_task: the task id is `str(uuid.uuid4())`, an unspecified
random string passed in as `task_id`; `created_at` is the current timestamp
passed in as `now_iso`.  Returns the task id and the `put_item` write. -/
def create_task (user_id name status : String) (embedding : Vec)
    (task_id now_iso : String) : String × TaskEffect :=
  let keys := make_task_keys user_id task_id
  (task_id,
   .putTask
     { PK := keys.1, SK := keys.2, taskId := task_id, entityType := "Task",
       name := name, status := status, embedding := embedding,
       createdAt := now_iso })

/-- linker.derive_status: identical keyword mapping to the one in
embedding_matcher.py. -/
def derive_status (action : String) : String :=
  match pyLower action with
  | "start" => "in_progress"
  | "started" => "in_progress"
  | "done" => "completed"
  | "complete" => "completed"
  | _ => "open"

/-- Result dict of `link_task`: either `matched_task` + confidence or
`created_task` + confidence (the confidence is the best score in both
cases). -/
inductive LinkResult where
  | matched (taskId : String) (confidence : ℝ)
  | created (taskId : String) (confidence : ℝ)

/-- The best-candidate loop of linker.link_task: skip tasks with a falsy
embedding, compute the cosine similarity (whose `ZeroDivisionError`
propagates), and keep the strictly best score starting from `0.0` /
`None`. -/
noncomputable def link_loop (msg_emb : Vec) :
    List TaskItem → ℝ → Option TaskItem →
    Except Unit (ℝ × Option TaskItem)
  | [], best_score, best_task => .ok (best_score, best_task)
  | t :: rest, best_score, best_task =>
    if t.embedding = [] then link_loop msg_emb rest best_score best_task
    else
      match cosine_similarity msg_emb t.embedding with
      | none => .error ()
      | some score =>
        if score > best_score then link_loop msg_emb rest score (some t)
        else link_loop msg_emb rest best_score best_task

/-- linker.link_task: embed the message (provider failures propagate), scan
the open tasks for the best cosine score, then either update the matched
task's status when `best_task and best_score > 0.85`, or create a new task.
`embed` stands for `embeddings.embed_text`, `open_tasks` for the result of
`task_store.list_open_tasks(user_id)`, and `new_task_id` / `now_iso` for the
uuid4 and the timestamp drawn inside `create_task`. -/
noncomputable def link_task (embed : String → Except Unit Vec)
    (open_tasks : List TaskItem) (new_task_id now_iso : String)
    (user_id message_text action : String) :
    Except Unit (LinkResult × TaskEffect) :=
  match embed message_text with
  | .error e => .error e
  | .ok msg_emb =>
    match link_loop msg_emb open_tasks 0 none with
    | .error e => .error e
    | .ok (best_score, best_task) =>
      let status := derive_status action
      match best_task with
      | some t =>
        if best_score > 0.85 then
          .ok (.matched t.taskId best_score,
               update_task_status user_id t.taskId status)
        else
          let r := create_task user_id message_text status msg_emb
            new_task_id now_iso
          .ok (.created r.1 best_score, r.2)
      | none =>
        let r := create_task user_id message_text status msg_emb
          new_task_id now_iso
        .ok (.created r.1 best_score, r.2)

end TaskLinker

namespace Events

/-- events.MessageReceived (the pydantic model, key-relevant fields). -/
structure MessageReceived where
  event_type : String := "MessageReceived"
  timestamp : String
  raw_text : String
  source : String
  source_id : String
  chat_id : Option String := none
  received_at : String
deriving DecidableEq

/-- MessageReceived.build_pk. -/
def MessageReceived.build_pk (source : String) : String := "EVENT#" ++ source

/-- MessageReceived.build_sk. -/
def MessageReceived.build_sk (received_at source_id : String) : String :=
  received_at ++ "#" ++ source_id

/-- MessageReceived.get_pk. -/
def MessageReceived.get_pk (e : MessageReceived) : String :=
  MessageReceived.build_pk e.source

/-- MessageReceived.get_sk. -/
def MessageReceived.get_sk (e : MessageReceived) : String :=
  MessageReceived.build_sk e.received_at e.source_id

/-- events.MessageClassified. -/
structure MessageClassified where
  event_type : String := "MessageClassified"
  timestamp : String
  classification : String
  confidence_score : ℝ
  classified_by : String
  classified_at : String
  item_pk : String
  item_sk : String
  source_event_sk : String
  source : String
  raw_text : String

/-- MessageClassified.build_pk. -/
def MessageClassified.build_pk (source : String) : String := "EVENT#" ++ source

/-- MessageClassified.build_sk (default sequence number 1). -/
def MessageClassified.build_sk (classified_at : String)
    (sequence : Int := 1) : String :=
  classified_at ++ "#CLASSIFIED#" ++ toString sequence

/-- MessageClassified.get_pk. -/
def MessageClassified.get_pk (e : MessageClassified) : String :=
  MessageClassified.build_pk e.source

/-- MessageClassified.get_sk (uses the default sequence 1). -/
def MessageClassified.get_sk (e : MessageClassified) : String :=
  MessageClassified.build_sk e.classified_at 1

/-- MessageClassified.create_from_classification: clamps the percentage
confidence to [0,100] and divides by 100.0; the item id is the first 16
characters of the source id; `now_iso` stands for `format_iso8601_zulu()`. -/
noncomputable def MessageClassified.create_from_classification
    (raw_text category : String)
    (confidence_pct : Int) (classified_by : String)
    (source_message : MessageReceived) (now_iso : String) : MessageClassified :=
  { event_type := "MessageClassified"
    timestamp := now_iso
    classification := category
    confidence_score := ((min 100 (max 0 confidence_pct) : Int) : ℝ) / 100
    classified_by := classified_by
    classified_at := now_iso
    item_pk := category.toLower ++ "#" ++ source_message.source_id.take 16
    item_sk := "PROFILE"
    source_event_sk := source_message.get_sk
    source := source_message.source
    raw_text := raw_text }

/-- events.MessageSimilar (key-relevant fields). -/
structure MessageSimilar where
  event_type : String := "MessageSimilar"
  timestamp : String
  similar_event_sk : Option String := none
  similarity_score : ℝ
  threshold_used : ℝ
  search_model : String
  searched_at : String
  link_created : Bool := false
  linked_item_pk : Option String := none
  linked_item_sk : Option String := none
  source_event_sk : String

/-- MessageSimilar.get_pk (hard-coded to the telegram source). -/
def MessageSimilar.get_pk (_e : MessageSimilar) : String := "EVENT#telegram"

/-- MessageSimilar.get_sk (hard-coded sequence 1). -/
def MessageSimilar.get_sk (e : MessageSimilar) : String :=
  e.searched_at ++ "#SIMILAR#1"

/-- The polymorphic events accepted by EventRepository.append_event. -/
inductive Event where
  | received (e : MessageReceived)
  | classified (e : MessageClassified)
  | similar (e : MessageSimilar)

/-- Dispatch of `event.get_pk()`. -/
def Event.get_pk : Event → String
  | .received e => e.get_pk
  | .classified e => e.get_pk
  | .similar e => e.get_pk

/-- Dispatch of `event.get_sk()`. -/
def Event.get_sk : Event → String
  | .received e => e.get_sk
  | .classified e => e.get_sk
  | .similar e => e.get_sk

/-- The event-store table: a map from the (pk, sk) key to the stored event
record (the serialized attribute map is determined by the event, so the
event itself is stored). -/
abbrev EventTable := String × String → Option Event

/-- DynamoDB `put_item`: writing a key that already exists replaces the whole
item; it never appends a duplicate. -/
noncomputable def put_event_item (tbl : EventTable) (key : String × String)
    (e : Event) : EventTable :=
  fun k => if k = key then some e else tbl k

/-- EventRepository.append_event: a `put_item` at the event's derived
(pk, sk) key. -/
noncomputable def append_event (tbl : EventTable) (e : Event) : EventTable :=
  put_event_item tbl (e.get_pk, e.get_sk) e

end Events

namespace Process

/-- The JSON `confidence` field of the classifier output as handled by
process.process_message: an int is kept, any other numeric value is
truncated toward zero by `int(float(confidence))`, a missing key defaults to
0, and a malformed value (conversion raises) is replaced by 0. -/
inductive ConfidenceField where
  | num (n : Int)
  | floatNum (x : ℝ)
  | missing
  | malformed

/-- Python `int(x)` on a float: truncation toward zero. -/
noncomputable def truncTowardZero (x : ℝ) : Int :=
  if 0 ≤ x then ⌊x⌋ else ⌈x⌉

/-- The int coercion step of process_message (lines 159-164). -/
noncomputable def coerce_confidence : ConfidenceField → Int
  | .num n => n
  | .floatNum x => truncTowardZero x
  | .missing => 0
  | .malformed => 0

/-- The classifier collaborator's JSON output
`(category, name, status, next_action, notes, confidence)`. -/
structure ClassifierOutput where
  category : String
  name : Option String := none
  status : Option String := none
  next_action : Option String := none
  notes : Option String := none
  confidence : ConfidenceField := .missing

/-- process.process_message: `result` is the first successful classifier
response (None from every provider raises); the original text is attached
and the confidence is coerced to an int and clamped by
`min(100, max(0, confidence))`. -/
noncomputable def process_message (message : String)
    (result : Option ClassifierOutput) : Except Unit Matcher.ItemData :=
  match result with
  | none => .error ()
  | some r =>
    .ok { category := r.category
          name := r.name
          status := r.status
          next_action := r.next_action
          notes := r.notes
          original_text := message
          confidence := min 100 (max 0 (coerce_confidence r.confidence)) }

/-- process.handle, restricted to its persistence behavior: classify, and
when the confidence is at least 60 call
`save_to_dynamodb_with_embedding(result)` — with `action` left at its Python
default "open" and the threshold at its default 0.85.  Telegram replies are
out of scope; `.ok none` is the low-confidence "not saved" outcome. -/
noncomputable def handle (env : Matcher.Env) (text : String)
    (classifier : Option ClassifierOutput)
    (timestamp : String) (hash_original : Int) :
    Except Unit (Option (Matcher.SaveResult × List Matcher.Effect)) :=
  match process_message text classifier with
  | .error e => .error e
  | .ok result =>
    if 60 ≤ result.confidence then
      let r := Matcher.save_to_dynamodb_with_embedding env result "open" 0.85
        timestamp hash_original
      match r.1 with
      | .error e => .error e
      | .ok res => .ok (some (res, r.2))
    else .ok none

end Process

/-- Fixture: query vector of unit norm. -/
def exQueryVec : Vec := [1, 0, 0, 0, 0]

/-- Fixture: stored task vector of norm 20 whose dot product with
`exQueryVec` is 17, so their cosine similarity is exactly 17/20 = 0.85. -/
def exTaskVec : Vec := [17, 7, 7, 3, 2]

/-- Fixture: an open task holding `exTaskVec`. -/
def exTask : TaskLinker.TaskItem :=
  { PK := "USER#u", SK := "TASK#t1", taskId := "t1", name := "write report",
    status := "open", embedding := exTaskVec, createdAt := "T0" }

/-- Fixture: a stored item whose `embedding` attribute is empty. -/
def exItemNoEmbedding : Matcher.Item :=
  { PK := "CATEGORY#Projects", SK := "S1", created_at := "T0",
    status := "open", name := some "Website redesign",
    original_text := "old text", category := "Projects", embedding := [] }

/-- Fixture environment: the index returns one hit with score 0.9 pointing at
`exItemNoEmbedding`. -/
noncomputable def exEnvScore09 : Matcher.Env :=
  { bedrock := fun _ => .ok [1]
    openai := fun _ => .ok [1]
    queryVectors := fun _ _ =>
      .ok [{ score := some 0.9, pk := some "CATEGORY#Projects",
             sk := some "S1" }]
    getItem := fun _ _ => some exItemNoEmbedding }

/-- Fixture environment: one hit with score exactly 0.85. -/
noncomputable def exEnvScore085 : Matcher.Env :=
  { bedrock := fun _ => .ok [1]
    openai := fun _ => .ok [1]
    queryVectors := fun _ _ =>
      .ok [{ score := some 0.85, pk := some "CATEGORY#Projects",
             sk := some "S1" }]
    getItem := fun _ _ => some exItemNoEmbedding }

/-- Fixture environment: one hit with score 0.5, below the threshold. -/
noncomputable def exEnvScore05 : Matcher.Env :=
  { bedrock := fun _ => .ok [1]
    openai := fun _ => .ok [1]
    queryVectors := fun _ _ =>
      .ok [{ score := some 0.5, pk := some "CATEGORY#Projects",
             sk := some "S1" }]
    getItem := fun _ _ => some exItemNoEmbedding }

/-- Fixture environment: the index query raises. -/
noncomputable def exEnvQueryError : Matcher.Env :=
  { bedrock := fun _ => .ok [1]
    openai := fun _ => .ok [1]
    queryVectors := fun _ _ => .error ()
    getItem := fun _ _ => none }

/-- Fixture: a classified record with a name. -/
def exNamedData : Matcher.ItemData :=
  { category := "Projects", name := some "Website redesign",
    original_text := "new text" }

/-- Fixture: a classified record without a name. -/
def exNamelessData : Matcher.ItemData :=
  { category := "Ideas", name := none, original_text := "an idea" }

/-- Fixtures for the key-collision counterexample: two distinct classified
records in the same category with the same original text. -/
def exDataA : Matcher.ItemData :=
  { category := "Projects", name := some "Website redesign",
    original_text := "redo the site" }

/-- Second record, differing from `exDataA` only in the name. -/
def exDataB : Matcher.ItemData :=
  { category := "Projects", name := some "Site rework",
    original_text := "redo the site" }

/-- Fixture MessageReceived events: same source, source id and received_at,
different raw text. -/
def exReceivedA : Events.MessageReceived :=
  { timestamp := "2025-01-01T00:00:00Z", raw_text := "first delivery",
    source := "telegram", source_id := "42",
    received_at := "2025-01-01T00:00:00Z" }

/-- Redelivery of the same upstream message. -/
def exReceivedB : Events.MessageReceived :=
  { timestamp := "2025-01-01T00:00:05Z", raw_text := "second delivery",
    source := "telegram", source_id := "42",
    received_at := "2025-01-01T00:00:00Z" }

/-- Fixture classifier output with integer confidence 92. -/
def exCls92 : Process.ClassifierOutput :=
  { category := "Admin", name := some "Renew passport",
    confidence := .num 92 }

/-- The classified record `process_message` produces from `exCls92`. -/
def exProcessed92 : Matcher.ItemData :=
  { category := "Admin", name := some "Renew passport",
    original_text := "renew passport", confidence := 92 }

/-- Fixture classifier output with no name (forces the create-with-zero-vector
path in the handle witness). -/
def exClsNameless : Process.ClassifierOutput :=
  { category := "Ideas", confidence := .num 92 }

/-- The item `create_item` writes for `exProcessed92` at timestamp "T" with
hash value 0: confidence is persisted as the integer 92. -/
def exItem92 : Matcher.Item :=
  { PK := "CATEGORY#Admin", SK := "T#Admin#0", created_at := "T",
    updated_at := none, status := "open", name := some "Renew passport",
    next_action := none, notes := none, original_text := "renew passport",
    confidence := 92, category := "Admin", embedding := Matcher.zeroVec }

/-- Small sanity lemma: squared norm of a vector is nonnegative. -/
theorem sumSq_nonneg (a : Vec) : 0 ≤ sumSq a := by
  unfold sumSq
  induction a with
  | nil => simp
  | cons x xs ih =>
      simp only [List.map_cons, List.sum_cons]
      have hx : 0 ≤ x * x := mul_self_nonneg x
      exact add_nonneg hx ih

/-- Helper: appending on the left of both sides of a string equation can be
cancelled. -/
theorem string_append_left_cancel {s t u : String} (h : s ++ t = s ++ u) :
    t = u := by
  have hd : (s ++ t).data = (s ++ u).data := congrArg String.data h
  simp only [String.data_append] at hd
  have hdu : t.data = u.data := List.append_cancel_left hd
  exact congrArg String.mk hdu

/-- Claim C5: the update operation's UpdateExpression sets exactly `status`,
`next_action`, `notes`, `updated_at` and `original_text`; applying it to a
stored item leaves `category`, `name`, `created_at`, the embedding, the
confidence and the PK/SK identity key unchanged. -/
theorem update_item_touches_only_mutable_fields
    (item : Matcher.Item) (item_data : Matcher.ItemData)
    (pk sk timestamp original_text : String) :
    Matcher.update_item pk sk item_data timestamp original_text =
      Matcher.Effect.updateItem pk sk (item_data.status.getD "open")
        item_data.next_action item_data.notes timestamp original_text
    ∧ ∀ status next_action notes,
        (Matcher.apply_update_item item status next_action notes
            timestamp original_text).PK = item.PK
      ∧ (Matcher.apply_update_item item status next_action notes
            timestamp original_text).SK = item.SK
      ∧ (Matcher.apply_update_item item status next_action notes
            timestamp original_text).category = item.category
      ∧ (Matcher.apply_update_item item status next_action notes
            timestamp original_text).name = item.name
      ∧ (Matcher.apply_update_item item status next_action notes
            timestamp original_text).created_at = item.created_at
      ∧ (Matcher.apply_update_item item status next_action notes
            timestamp original_text).embedding = item.embedding
      ∧ (Matcher.apply_update_item item status next_action notes
            timestamp original_text).confidence = item.confidence
      ∧ (Matcher.apply_update_item item status next_action notes
            timestamp original_text).status = status
      ∧ (Matcher.apply_update_item item status next_action notes
            timestamp original_text).next_action = next_action
      ∧ (Matcher.apply_update_item item status next_action notes
            timestamp original_text).notes = notes
      ∧ (Matcher.apply_update_item item status next_action notes
            timestamp original_text).updated_at = some timestamp
      ∧ (Matcher.apply_update_item item status next_action notes
            timestamp original_text).original_text = original_text := by
  exact ⟨rfl, fun status next_action notes =>
    ⟨rfl, rfl, rfl, rfl, rfl, rfl, rfl, rfl, rfl, rfl, rfl, rfl⟩⟩

/-- Claim C6: two MessageReceived events with the same source, source_id and
received_at derive the same partition and sort key, and appending both leaves
the event table exactly as if only the second had been appended (the second
put overwrites, it does not duplicate). -/
theorem message_received_same_key_overwrites (e1 e2 : Events.MessageReceived)
    (hsrc : e1.source = e2.source) (hsid : e1.source_id = e2.source_id)
    (hrcv : e1.received_at = e2.received_at) :
    (Events.Event.received e1).get_pk = (Events.Event.received e2).get_pk
    ∧ (Events.Event.received e1).get_sk = (Events.Event.received e2).get_sk
    ∧ ∀ tbl : Events.EventTable,
        Events.append_event (Events.append_event tbl (.received e1))
            (.received e2)
          = Events.append_event tbl (.received e2) := by
  have hpk : (Events.Event.received e1).get_pk
      = (Events.Event.received e2).get_pk := by
    simp [Events.Event.get_pk, Events.MessageReceived.get_pk,
      Events.MessageReceived.build_pk, hsrc]
  have hsk : (Events.Event.received e1).get_sk
      = (Events.Event.received e2).get_sk := by
    simp [Events.Event.get_sk, Events.MessageReceived.get_sk,
      Events.MessageReceived.build_sk, hsid, hrcv]
  refine ⟨hpk, hsk, fun tbl => ?_⟩
  funext k
  simp only [Events.append_event, Events.put_event_item]
  rw [hpk, hsk]
  by_cases hk : k = ((Events.Event.received e2).get_pk,
    (Events.Event.received e2).get_sk)
  · rw [if_pos hk, if_pos hk]
  · rw [if_neg hk, if_neg hk, if_neg hk]

/-- Witness for C6: concrete redelivery of upstream message id 42 at the same
received_at timestamp overwrites the log entry. -/
theorem message_received_same_key_overwrites_witness :
    (Events.Event.received exReceivedA).get_pk
      = (Events.Event.received exReceivedB).get_pk
    ∧ (Events.Event.received exReceivedA).get_sk
      = (Events.Event.received exReceivedB).get_sk
    ∧ Events.append_event
        (Events.append_event (fun _ => none) (.received exReceivedA))
        (.received exReceivedB)
      = Events.append_event (fun _ => none) (.received exReceivedB) := by
  have h := message_received_same_key_overwrites exReceivedA exReceivedB
    rfl rfl rfl
  exact ⟨h.1, h.2.1, h.2.2 _⟩

/-- Claim C9: if the vector index query raises while saving a named record,
the error propagates out of save_with_embedding_matching and no write (create
or update) is performed. -/
theorem index_error_aborts_save (env : Matcher.Env)
    (item_data : Matcher.ItemData) (thr : ℝ) (ts : String) (hsh : Int)
    (emb : Vec)
    (hname : optStrTruthy item_data.name = true)
    (hemb : Matcher.embed_text env (item_data.name.getD "") = .ok emb)
    (hq : env.queryVectors item_data.category emb = .error ()) :
    Matcher.save_with_embedding_matching env item_data thr ts hsh
      = (.error (), []) := by
  simp only [Matcher.save_with_embedding_matching, Matcher.find_similar_item,
    hname, hemb, hq, Bool.true_eq_false, if_false]

/-- Witness for C9: a concrete named record and an environment whose index
query raises; the save raises and performs no writes. -/
theorem index_error_aborts_save_witness :
    optStrTruthy exNamedData.name = true
    ∧ Matcher.save_with_embedding_matching exEnvQueryError exNamedData
        0.85 "T1" 7 = (.error (), []) := by
  refine ⟨rfl, ?_⟩
  exact index_error_aborts_save exEnvQueryError exNamedData 0.85 "T1" 7
    [1] rfl rfl rfl

/-- Claim C3: a classified record with an absent or empty name skips matching
entirely (the result does not depend on the providers or the index), creates
a new item whose stored embedding is the 1536-dimensional zero vector, and
returns action "created" with similarity 0.0; and embed_text on empty text
returns the 1536-dimensional zero vector for every provider environment. -/
theorem empty_name_creates_zero_vector (env1 env2 : Matcher.Env)
    (d : Matcher.ItemData) (thr : ℝ) (ts : String) (hsh : Int)
    (hname : optStrTruthy d.name = false) :
    Matcher.save_with_embedding_matching env1 d thr ts hsh
      = Matcher.save_with_embedding_matching env2 d thr ts hsh
    ∧ Matcher.save_with_embedding_matching env1 d thr ts hsh
      = (.ok { action := "created",
               sk := (Matcher.create_item d ts hsh Matcher.zeroVec).1,
               similarity := 0, category := d.category },
         (Matcher.create_item d ts hsh Matcher.zeroVec).2)
    ∧ (∀ it, Matcher.Effect.putItem it
          ∈ (Matcher.save_with_embedding_matching env1 d thr ts hsh).2 →
          it.embedding = List.replicate 1536 (0 : ℝ))
    ∧ ∀ env3 : Matcher.Env,
        Matcher.embed_text env3 "" = .ok (List.replicate 1536 (0 : ℝ)) := by
  have heval : ∀ env : Matcher.Env,
      Matcher.save_with_embedding_matching env d thr ts hsh
        = (.ok { action := "created",
                 sk := (Matcher.create_item d ts hsh Matcher.zeroVec).1,
                 similarity := 0, category := d.category },
           (Matcher.create_item d ts hsh Matcher.zeroVec).2) := by
    intro env
    simp only [Matcher.save_with_embedding_matching, hname, if_true]
  refine ⟨(heval env1).trans (heval env2).symm, heval env1, ?_, ?_⟩
  · intro it hmem
    rw [heval env1] at hmem
    simp only [Matcher.create_item, List.mem_cons, List.not_mem_nil,
      or_false] at hmem
    rcases hmem with hput | hidx
    · cases hput
      rfl
    · cases hidx
  · intro env3
    unfold Matcher.embed_text
    rw [if_pos rfl]
    rfl

/-- Witness for C3: the concrete nameless record is saved identically under
two different environments, stores the zero vector, and embed_text of the
empty string is the zero vector. -/
theorem empty_name_creates_zero_vector_witness :
    optStrTruthy exNamelessData.name = false
    ∧ Matcher.save_with_embedding_matching exEnvQueryError exNamelessData
        0.85 "T1" 7
      = Matcher.save_with_embedding_matching exEnvScore09 exNamelessData
        0.85 "T1" 7
    ∧ (∀ it, Matcher.Effect.putItem it
          ∈ (Matcher.save_with_embedding_matching exEnvQueryError
              exNamelessData 0.85 "T1" 7).2 →
          it.embedding = List.replicate 1536 (0 : ℝ))
    ∧ Matcher.embed_text exEnvScore09 "" = .ok (List.replicate 1536 (0 : ℝ))
    := by
  have h := empty_name_creates_zero_vector exEnvQueryError exEnvScore09
    exNamelessData 0.85 "T1" 7 rfl
  exact ⟨rfl, h.1, h.2.2.1, h.2.2.2 _⟩

/-- Counterexample to C2: the task_linker variant of cosine_similarity is not
total-with-0.0 on zero-norm input — on the zero vector (paired with a unit
vector) it hits the unguarded division and raises ZeroDivisionError
(modelled as `none`), instead of returning 0.0. -/
theorem task_linker_cosine_raises_on_zero_norm :
    TaskLinker.cosine_similarity [(0 : ℝ)] [(1 : ℝ)] = none
    ∧ sumSq [(0 : ℝ)] = 0 := by
  have h0 : sumSq [(0 : ℝ)] = 0 := by simp [sumSq]
  have hz : Real.sqrt (sumSq [(0 : ℝ)]) * Real.sqrt (sumSq [(1 : ℝ)]) = 0 := by
    rw [h0, Real.sqrt_zero, zero_mul]
  refine ⟨?_, h0⟩
  unfold TaskLinker.cosine_similarity
  rw [if_pos hz]

/-- Amended C2: when either vector has zero norm, the embedding_matcher
variant of cosine_similarity returns 0.0 (it is total), while the
task_linker variant raises ZeroDivisionError (modelled as `none`). -/
theorem cosine_zero_norm_behavior (a b : Vec)
    (hz : Real.sqrt (sumSq a) * Real.sqrt (sumSq b) = 0) :
    Matcher.cosine_similarity a b = 0
    ∧ TaskLinker.cosine_similarity a b = none := by
  constructor
  · unfold Matcher.cosine_similarity
    by_cases he : a = [] ∨ b = []
    · rw [if_pos he]
    · rw [if_neg he, if_pos hz]
  · unfold TaskLinker.cosine_similarity
    rw [if_pos hz]

/-- Witness for the amended C2 at the concrete zero-norm input. -/
theorem cosine_zero_norm_behavior_witness :
    Matcher.cosine_similarity [(0 : ℝ)] [(1 : ℝ)] = 0
    ∧ TaskLinker.cosine_similarity [(0 : ℝ)] [(1 : ℝ)] = none := by
  refine cosine_zero_norm_behavior [(0 : ℝ)] [(1 : ℝ)] ?_
  have h0 : sumSq [(0 : ℝ)] = 0 := by simp [sumSq]
  rw [h0, Real.sqrt_zero, zero_mul]

/-- Counterexample to C7: the confidence persisted on a created item is the
clamped percentage (here 92), not a value normalized to [0,1] — create_item
stores `item_data.get("confidence", 0)` without dividing by 100. -/
theorem confidence_stored_as_percentage :
    Process.process_message "renew passport" (some exCls92)
      = .ok exProcessed92
    ∧ Matcher.create_item exProcessed92 "T" 0 Matcher.zeroVec
      = ("T#Admin#0",
         [Matcher.Effect.putItem exItem92,
          Matcher.Effect.indexVector "CATEGORY#Admin" "T#Admin#0"
            Matcher.zeroVec "Admin" "Renew passport" "open"])
    ∧ exItem92.confidence = 92
    ∧ ¬(exItem92.confidence ≤ 1) := by
  refine ⟨rfl, rfl, rfl, by decide⟩

/-- Amended C7: process_message coerces the classifier confidence to an int
(malformed values to 0) and clamps it to [0,100]; create_item persists that
percentage value unchanged on the item; only the MessageClassified event
factory normalizes confidence to [0,1]. -/
theorem confidence_clamped_to_percentage_range (msg : String)
    (r : Process.ClassifierOutput) (d : Matcher.ItemData)
    (hp : Process.process_message msg (some r) = .ok d) :
    (0 ≤ d.confidence ∧ d.confidence ≤ 100)
    ∧ (∀ ts hsh v it,
        Matcher.Effect.putItem it ∈ (Matcher.create_item d ts hsh v).2 →
        it.confidence = d.confidence)
    ∧ ∀ raw cat (pct : Int) model sm now,
        0 ≤ (Events.MessageClassified.create_from_classification raw cat pct
            model sm now).confidence_score
        ∧ (Events.MessageClassified.create_from_classification raw cat pct
            model sm now).confidence_score ≤ 1 := by
  simp only [Process.process_message, Except.ok.injEq] at hp
  subst hp
  refine ⟨⟨le_min (by norm_num) (le_max_left 0 _), min_le_left _ _⟩, ?_, ?_⟩
  · intro ts hsh v it hmem
    simp only [Matcher.create_item, List.mem_cons, List.not_mem_nil,
      or_false] at hmem
    rcases hmem with hput | hidx
    · cases hput
      rfl
    · cases hidx
  · intro raw cat pct model sm now
    unfold Events.MessageClassified.create_from_classification
    constructor
    · apply div_nonneg _ (by norm_num)
      have h0 : (0 : Int) ≤ min 100 (max 0 pct) :=
        le_min (by norm_num) (le_max_left 0 _)
      exact_mod_cast h0
    · rw [div_le_one (by norm_num)]
      have h100 : (min 100 (max 0 pct) : Int) ≤ 100 := min_le_left _ _
      exact_mod_cast h100

/-- Witness for the amended C7 at the concrete classifier output with
confidence 92. -/
theorem confidence_clamped_to_percentage_range_witness :
    (0 ≤ exProcessed92.confidence ∧ exProcessed92.confidence ≤ 100)
    ∧ (∀ it, Matcher.Effect.putItem it
          ∈ (Matcher.create_item exProcessed92 "T" 0 Matcher.zeroVec).2 →
          it.confidence = exProcessed92.confidence)
    ∧ (0 ≤ (Events.MessageClassified.create_from_classification
          "renew passport" "Admin" 92 "claude-sonnet" exReceivedA
          "T").confidence_score
       ∧ (Events.MessageClassified.create_from_classification
          "renew passport" "Admin" 92 "claude-sonnet" exReceivedA
          "T").confidence_score ≤ 1) := by
  have h := confidence_clamped_to_percentage_range "renew passport" exCls92
    exProcessed92 rfl
  exact ⟨h.1, fun it => h.2.1 "T" 0 Matcher.zeroVec it,
    h.2.2 "renew passport" "Admin" 92 "claude-sonnet" exReceivedA "T"⟩

/-- Counterexample to C8: two distinct create operations in the same
millisecond (same timestamp string) and the same category, for message texts
with the same Python hash (here: the very same original text, whose per-run
hash is deterministic), produce identical PK and SK — the identity key does
collide, and the second put_item overwrites the first item. -/
theorem create_item_key_collision :
    exDataA ≠ exDataB
    ∧ (Matcher.create_item exDataA "2025-01-01T00:00:00+00:00" 123
        Matcher.zeroVec).1
      = (Matcher.create_item exDataB "2025-01-01T00:00:00+00:00" 123
        Matcher.zeroVec).1
    ∧ ("CATEGORY#" ++ exDataA.category) = ("CATEGORY#" ++ exDataB.category)
    := by
  exact ⟨by decide, rfl, rfl⟩

/-- Amended C8: the identity key produced by create_item is a deterministic
function of the timestamp, the category and `hash(original_text) % 10000`, so
two creates in the same millisecond and category collide exactly when those
hash residues agree; the task_store variant's keys are distinct whenever its
uuid4-generated task ids are distinct. -/
theorem create_key_collision_characterization :
    (∀ (d1 d2 : Matcher.ItemData) (ts : String) (h1 h2 : Int) (v1 v2 : Vec),
        d1.category = d2.category → h1 % 10000 = h2 % 10000 →
        (Matcher.create_item d1 ts h1 v1).1 = (Matcher.create_item d2 ts h2 v2).1)
    ∧ ∀ uid t1 t2 : String, t1 ≠ t2 →
        TaskLinker.make_task_keys uid t1 ≠ TaskLinker.make_task_keys uid t2 := by
  constructor
  · intro d1 d2 ts h1 h2 v1 v2 hcat hmod
    simp only [Matcher.create_item]
    rw [hcat, hmod]
  · intro uid t1 t2 hne heq
    apply hne
    have h2 : ("TASK#" ++ t1 : String) = "TASK#" ++ t2 :=
      congrArg Prod.snd heq
    exact string_append_left_cancel h2

/-- Witness for the amended C8: a same-millisecond same-category collision at
equal hash residues, and distinct task ids giving distinct task keys. -/
theorem create_key_collision_characterization_witness :
    (Matcher.create_item exDataA "2025-01-01T00:00:00+00:00" 3
        Matcher.zeroVec).1
      = (Matcher.create_item exDataB "2025-01-01T00:00:00+00:00" 10003
        Matcher.zeroVec).1
    ∧ TaskLinker.make_task_keys "u" "a" ≠ TaskLinker.make_task_keys "u" "b"
    := by
  refine ⟨?_, ?_⟩
  · exact create_key_collision_characterization.1 exDataA exDataB
      "2025-01-01T00:00:00+00:00" 3 10003 Matcher.zeroVec Matcher.zeroVec
      rfl (by decide)
  · exact create_key_collision_characterization.2 "u" "a" "b" (by decide)

/-- Helper: evaluating find_similar_item in the score-0.9 fixture
environment: the hit is above threshold, its metadata keys are truthy, and
the table lookup returns the stored item. -/
theorem find_score09_eval :
    Matcher.find_similar_item exEnvScore09 "Projects" [1] 0.85
      = .ok (some exItemNoEmbedding) := by
  unfold Matcher.find_similar_item
  simp only [exEnvScore09, Option.getD_some]
  rw [if_pos (by norm_num : (0.9 : ℝ) ≥ 0.85)]
  simp

/-- Amended C4: when a match is found, save_with_embedding_matching returns
action "updated" with a similarity that is RE-COMPUTED as the cosine between
the query embedding and the matched item's stored embedding — 0.0 when the
stored embedding attribute is empty — rather than the index score the match
decision was made on; the only write is the field update of the matched
item. -/
theorem updated_similarity_is_recomputed_cosine (env : Matcher.Env)
    (d : Matcher.ItemData) (thr : ℝ) (ts : String) (hsh : Int)
    (emb : Vec) (it : Matcher.Item)
    (hname : optStrTruthy d.name = true)
    (hemb : Matcher.embed_text env (d.name.getD "") = .ok emb)
    (hfind : Matcher.find_similar_item env d.category emb thr
      = .ok (some it)) :
    Matcher.save_with_embedding_matching env d thr ts hsh
      = (.ok { action := "updated", sk := it.SK,
               similarity := if it.embedding = [] then 0
                 else Matcher.cosine_similarity emb it.embedding,
               category := d.category },
         [Matcher.update_item it.PK it.SK d ts d.original_text]) := by
  simp only [Matcher.save_with_embedding_matching, hname, hemb, hfind,
    Bool.true_eq_false, if_false, Matcher.update_item]

/-- Counterexample to C4: in the score-0.9 environment the match decision is
made on score 0.9 (≥ 0.85), yet the returned similarity is 0.0 because the
matched item's stored embedding attribute is empty — the returned similarity
is not the best candidate's score. -/
theorem updated_similarity_zero_on_empty_embedding :
    (Matcher.save_with_embedding_matching exEnvScore09 exNamedData
        0.85 "T1" 7).1
      = .ok { action := "updated", sk := "S1", similarity := 0,
              category := "Projects" }
    ∧ (0.9 : ℝ) ≥ 0.85 ∧ (0 : ℝ) ≠ 0.9 := by
  refine ⟨?_, by norm_num, by norm_num⟩
  have h1 : optStrTruthy exNamedData.name = true := rfl
  have h2 : Matcher.embed_text exEnvScore09 (exNamedData.name.getD "")
      = .ok [1] := rfl
  have h3 : Matcher.find_similar_item exEnvScore09 exNamedData.category [1]
      0.85 = .ok (some exItemNoEmbedding) := find_score09_eval
  simp only [Matcher.save_with_embedding_matching, h1, h2, h3,
    Bool.true_eq_false, if_false]
  simp [exItemNoEmbedding, exNamedData]

/-- Witness for the amended C4 in the score-0.9 environment with an
empty stored embedding. -/
theorem updated_similarity_is_recomputed_cosine_witness :
    Matcher.save_with_embedding_matching exEnvScore09 exNamedData 0.85 "T1" 7
      = (.ok { action := "updated", sk := exItemNoEmbedding.SK,
               similarity := if exItemNoEmbedding.embedding = [] then 0
                 else Matcher.cosine_similarity [1]
                   exItemNoEmbedding.embedding,
               category := exNamedData.category },
         [Matcher.update_item exItemNoEmbedding.PK exItemNoEmbedding.SK
            exNamedData "T1" exNamedData.original_text]) := by
  exact updated_similarity_is_recomputed_cosine exEnvScore09 exNamedData 0.85
    "T1" 7 [1] exItemNoEmbedding rfl rfl find_score09_eval

/-- Helper: squared norm of the fixture query vector. -/
theorem sumSq_exQueryVec : sumSq exQueryVec = 1 := by
  norm_num [sumSq, exQueryVec]

/-- Helper: squared norm of the fixture task vector. -/
theorem sumSq_exTaskVec : sumSq exTaskVec = 400 := by
  norm_num [sumSq, exTaskVec]

/-- Helper: dot product of the fixture vectors. -/
theorem dotProd_exVecs : dotProd exQueryVec exTaskVec = 17 := by
  norm_num [dotProd, exQueryVec, exTaskVec]

/-- Helper: the square root of 400. -/
theorem sqrt_four_hundred : Real.sqrt 400 = 20 := by
  rw [show (400 : ℝ) = 20 ^ 2 by norm_num]
  exact Real.sqrt_sq (by norm_num)

/-- Helper: the task_linker cosine of the fixture vectors is exactly
17/20 = 0.85. -/
theorem tl_cosine_exact :
    TaskLinker.cosine_similarity exQueryVec exTask.embedding
      = some (17 / 20) := by
  rw [show exTask.embedding = exTaskVec from rfl]
  unfold TaskLinker.cosine_similarity
  rw [sumSq_exQueryVec, sumSq_exTaskVec, Real.sqrt_one, sqrt_four_hundred,
    dotProd_exVecs]
  rw [if_neg (by norm_num : ¬((1 : ℝ) * 20 = 0))]
  norm_num

/-- Helper: the best-candidate loop over the single fixture task returns
best score 17/20 with the task selected. -/
theorem link_loop_exact :
    TaskLinker.link_loop exQueryVec [exTask] 0 none
      = .ok (17 / 20, some exTask) := by
  simp only [TaskLinker.link_loop]
  rw [if_neg (show ¬(exTask.embedding = []) by simp [exTask, exTaskVec])]
  rw [tl_cosine_exact]
  norm_num

/-- Counterexample to C1: in the task_linker variant, a best candidate whose
cosine similarity is exactly 0.85 (= 17/20) is NOT treated as a match — the
guard is the strict `best_score > 0.85` — so link_task creates a new task
instead of updating the matched one. -/
theorem link_task_creates_at_exact_threshold :
    TaskLinker.link_task (fun _ => .ok exQueryVec) [exTask] "nid" "T1" "u"
        "finish the report" "open"
      = .ok (.created "nid" (17 / 20),
             .putTask { PK := "USER#u", SK := "TASK#nid", taskId := "nid",
                        entityType := "Task", name := "finish the report",
                        status := "open", embedding := exQueryVec,
                        createdAt := "T1" })
    ∧ (17 : ℝ) / 20 = 0.85 := by
  constructor
  · have hds : TaskLinker.derive_status "open" = "open" := by decide
    simp only [TaskLinker.link_task]
    rw [link_loop_exact]
    norm_num [hds, TaskLinker.create_task, TaskLinker.make_task_keys]
    exact ⟨rfl, rfl⟩
  · norm_num

/-- Amended C1: threshold boundary semantics differ per variant.  In
embedding_matcher, find_similar_item uses the inclusive `score >= threshold`:
a best score exactly equal to the threshold is a match (given resolvable
metadata), a best score strictly below is not, and save_with_embedding_matching
turns a found match into action "updated" and no match into "created".  In
task_linker, link_task uses the strict `best_score > 0.85`: a best score not
strictly above 0.85 — including exactly 0.85 — creates a new task. -/
theorem threshold_boundary_by_variant :
    (∀ (env : Matcher.Env) (cat : String) (emb : Vec) (thr : ℝ)
        (best : Matcher.Hit) (rest : List Matcher.Hit) (pk sk : String)
        (it : Matcher.Item),
        env.queryVectors cat emb = .ok (best :: rest) →
        best.score.getD 0 = thr →
        best.pk = some pk → pk ≠ "" → best.sk = some sk → sk ≠ "" →
        env.getItem pk sk = some it →
        Matcher.find_similar_item env cat emb thr = .ok (some it))
    ∧ (∀ (env : Matcher.Env) (cat : String) (emb : Vec) (thr : ℝ)
        (best : Matcher.Hit) (rest : List Matcher.Hit),
        env.queryVectors cat emb = .ok (best :: rest) →
        best.score.getD 0 < thr →
        Matcher.find_similar_item env cat emb thr = .ok none)
    ∧ (∀ (env : Matcher.Env) (d : Matcher.ItemData) (thr : ℝ) (ts : String)
        (hsh : Int) (emb : Vec) (it : Matcher.Item),
        optStrTruthy d.name = true →
        Matcher.embed_text env (d.name.getD "") = .ok emb →
        Matcher.find_similar_item env d.category emb thr = .ok (some it) →
        ∃ r, (Matcher.save_with_embedding_matching env d thr ts hsh).1
            = .ok r ∧ r.action = "updated")
    ∧ (∀ (env : Matcher.Env) (d : Matcher.ItemData) (thr : ℝ) (ts : String)
        (hsh : Int) (emb : Vec),
        optStrTruthy d.name = true →
        Matcher.embed_text env (d.name.getD "") = .ok emb →
        Matcher.find_similar_item env d.category emb thr = .ok none →
        ∃ r, (Matcher.save_with_embedding_matching env d thr ts hsh).1
            = .ok r ∧ r.action = "created")
    ∧ ∀ (embed : String → Except Unit Vec)
        (tasks : List TaskLinker.TaskItem)
        (tid now uid msg act : String) (memb : Vec) (s : ℝ)
        (t : TaskLinker.TaskItem),
        embed msg = .ok memb →
        TaskLinker.link_loop memb tasks 0 none = .ok (s, some t) →
        ¬(s > 0.85) →
        TaskLinker.link_task embed tasks tid now uid msg act
          = .ok (.created tid s,
              (TaskLinker.create_task uid msg (TaskLinker.derive_status act)
                memb tid now).2) := by
  refine ⟨?_, ?_, ?_, ?_, ?_⟩
  · intro env cat emb thr best rest pk sk it hq hscore hpk hpkne hsk hskne
      hget
    simp only [Matcher.find_similar_item, hq, hpk, hsk, hscore, hget]
    rw [if_pos (le_refl thr)]
    rw [if_neg (not_or.mpr ⟨hpkne, hskne⟩)]
  · intro env cat emb thr best rest hq hlt
    simp only [Matcher.find_similar_item, hq]
    rw [if_neg (not_le.mpr hlt)]
  · intro env d thr ts hsh emb it hname hemb hfind
    simp only [Matcher.save_with_embedding_matching, hname, hemb, hfind,
      Bool.true_eq_false, if_false]
    exact ⟨_, rfl, rfl⟩
  · intro env d thr ts hsh emb hname hemb hfind
    simp only [Matcher.save_with_embedding_matching, hname, hemb, hfind,
      Bool.true_eq_false, if_false]
    exact ⟨_, rfl, rfl⟩
  · intro embed tasks tid now uid msg act memb s t hembed hloop hgt
    simp only [TaskLinker.link_task, hembed, hloop]
    rw [if_neg hgt]
    rfl

/-- Witness for the amended C1: score exactly 0.85 matches and updates in the
matcher variant, score 0.5 creates, and the task_linker variant creates at
cosine exactly 17/20 = 0.85. -/
theorem threshold_boundary_by_variant_witness :
    Matcher.find_similar_item exEnvScore085 "Projects" [1] 0.85
      = .ok (some exItemNoEmbedding)
    ∧ Matcher.find_similar_item exEnvScore05 "Projects" [1] 0.85 = .ok none
    ∧ (∃ r, (Matcher.save_with_embedding_matching exEnvScore085 exNamedData
          0.85 "T1" 7).1 = .ok r ∧ r.action = "updated")
    ∧ (∃ r, (Matcher.save_with_embedding_matching exEnvScore05 exNamedData
          0.85 "T1" 7).1 = .ok r ∧ r.action = "created")
    ∧ TaskLinker.link_task (fun _ => .ok exQueryVec) [exTask] "nid2" "T2"
        "u" "finish the report" "open"
      = .ok (.created "nid2" (17 / 20),
          (TaskLinker.create_task "u" "finish the report"
            (TaskLinker.derive_status "open") exQueryVec "nid2" "T2").2) := by
  have h := threshold_boundary_by_variant
  have h085 : Matcher.find_similar_item exEnvScore085 "Projects" [1] 0.85
      = .ok (some exItemNoEmbedding) :=
    h.1 exEnvScore085 "Projects" [1] 0.85
      { score := some 0.85, pk := some "CATEGORY#Projects", sk := some "S1" }
      [] "CATEGORY#Projects" "S1" exItemNoEmbedding rfl rfl rfl
      (by decide) rfl (by decide) rfl
  have h05 : Matcher.find_similar_item exEnvScore05 "Projects" [1] 0.85
      = .ok none :=
    h.2.1 exEnvScore05 "Projects" [1] 0.85
      { score := some 0.5, pk := some "CATEGORY#Projects", sk := some "S1" }
      [] rfl (by norm_num)
  refine ⟨h085, h05, ?_, ?_, ?_⟩
  · exact h.2.2.1 exEnvScore085 exNamedData 0.85 "T1" 7 [1]
      exItemNoEmbedding rfl rfl h085
  · exact h.2.2.2.1 exEnvScore05 exNamedData 0.85 "T1" 7 [1] rfl rfl h05
  · exact h.2.2.2.2 (fun _ => .ok exQueryVec) [exTask] "nid2" "T2" "u"
      "finish the report" "open" exQueryVec (17 / 20) exTask rfl
      link_loop_exact (by norm_num)

/-- Helper: when the incoming record's status field is "open", every write
performed by save_with_embedding_matching stores status "open". -/
theorem save_with_all_effects_open (env : Matcher.Env)
    (d : Matcher.ItemData) (thr : ℝ) (ts : String) (hsh : Int)
    (hst : d.status = some "open") :
    ∀ e ∈ (Matcher.save_with_embedding_matching env d thr ts hsh).2,
      Matcher.effectStatus e = "open" := by
  unfold Matcher.save_with_embedding_matching
  split
  · intro e he
    simp only [Matcher.create_item, List.mem_cons, List.not_mem_nil,
      or_false] at he
    rcases he with h | h <;> subst h <;>
      simp [Matcher.effectStatus, hst]
  · split
    · intro e he
      simp at he
    · split
      · intro e he
        simp at he
      · intro e he
        simp only [List.mem_cons, List.not_mem_nil, or_false] at he
        subst he
        simp [Matcher.update_item, Matcher.effectStatus, hst]
      · intro e he
        simp only [Matcher.create_item, List.mem_cons, List.not_mem_nil,
          or_false] at he
        rcases he with h | h <;> subst h <;>
          simp [Matcher.effectStatus, hst]

/-- Helper: save_to_dynamodb_with_embedding called with action "open" (the
Python default) returns a result whose status is "open" and only performs
writes that store status "open". -/
theorem save_to_dynamodb_open_eval (env : Matcher.Env)
    (d : Matcher.ItemData) (ts : String) (hsh : Int) :
    (∀ res, (Matcher.save_to_dynamodb_with_embedding env d "open" 0.85
        ts hsh).1 = .ok res → res.status = some "open")
    ∧ ∀ e ∈ (Matcher.save_to_dynamodb_with_embedding env d "open" 0.85
        ts hsh).2, Matcher.effectStatus e = "open" := by
  have hds : Matcher.derive_status "open" = "open" := by decide
  constructor
  · intro res hres
    simp only [Matcher.save_to_dynamodb_with_embedding] at hres
    split at hres
    · cases hres
    · cases hres
      simp [hds]
  · intro e he
    simp only [Matcher.save_to_dynamodb_with_embedding] at he
    exact save_with_all_effects_open env
      { d with status := some (Matcher.derive_status "open") } 0.85 ts hsh
      (by rw [hds]) e he

/-- Claim C10: save_to_dynamodb_with_embedding unconditionally overwrites the
record's status with derive_status(action); the process handler calls it with
the default action "open", which derive_status maps to "open", so on that
path the classifier-supplied status is discarded (the outcome is independent
of it) and every created or updated item's status is stored as "open". -/
theorem process_path_forces_status_open :
    Matcher.derive_status "open" = "open"
    ∧ (∀ (env : Matcher.Env) (text : String)
        (cls : Option Process.ClassifierOutput) (ts : String) (hsh : Int)
        (res : Matcher.SaveResult) (effs : List Matcher.Effect),
        Process.handle env text cls ts hsh = .ok (some (res, effs)) →
        res.status = some "open"
        ∧ ∀ e ∈ effs, Matcher.effectStatus e = "open")
    ∧ ∀ (env : Matcher.Env) (d : Matcher.ItemData) (s1 s2 : Option String)
        (ts : String) (hsh : Int),
        Matcher.save_to_dynamodb_with_embedding env { d with status := s1 }
          "open" 0.85 ts hsh
        = Matcher.save_to_dynamodb_with_embedding env { d with status := s2 }
          "open" 0.85 ts hsh := by
  refine ⟨by decide, ?_, ?_⟩
  · intro env text cls ts hsh res effs hrun
    cases cls with
    | none =>
      exact absurd hrun (by simp [Process.handle, Process.process_message])
    | some r =>
      simp only [Process.handle, Process.process_message] at hrun
      split at hrun
      · split at hrun
        · cases hrun
        · rename_i res0 heq
          simp only [Except.ok.injEq, Option.some.injEq, Prod.mk.injEq]
            at hrun
          obtain ⟨hres, heffs⟩ := hrun
          constructor
          · rw [← hres]
            exact (save_to_dynamodb_open_eval env _ ts hsh).1 res0 heq
          · rw [← heffs]
            exact (save_to_dynamodb_open_eval env _ ts hsh).2
      · cases hrun
  · intro env d s1 s2 ts hsh
    rfl

/-- Witness for C10: a concrete classified message (confidence 92, no name)
processed through the handler path is stored with status "open" in both the
item write and the index write, and the save outcome is independent of the
classifier-supplied status. -/
theorem process_path_forces_status_open_witness :
    ({ action := "created", sk := "T#Ideas#0", similarity := 0,
       category := "Ideas", status := some "open" }
      : Matcher.SaveResult).status = some "open"
    ∧ (∀ e ∈ [Matcher.Effect.putItem
          { PK := "CATEGORY#Ideas", SK := "T#Ideas#0", created_at := "T",
            updated_at := none, status := "open", name := none,
            next_action := none, notes := none,
            original_text := "hello world", confidence := 92,
            category := "Ideas", embedding := Matcher.zeroVec },
        Matcher.Effect.indexVector "CATEGORY#Ideas" "T#Ideas#0"
          Matcher.zeroVec "Ideas" "" "open"],
        Matcher.effectStatus e = "open")
    ∧ Matcher.save_to_dynamodb_with_embedding exEnvQueryError
        { exNamelessData with status := some "done" } "open" 0.85 "T" 0
      = Matcher.save_to_dynamodb_with_embedding exEnvQueryError
        { exNamelessData with status := none } "open" 0.85 "T" 0 := by
  have h := process_path_forces_status_open
  have h2 := h.2.1 exEnvQueryError "hello world" (some exClsNameless) "T" 0
    { action := "created", sk := "T#Ideas#0", similarity := 0,
      category := "Ideas", status := some "open" }
    [Matcher.Effect.putItem
        { PK := "CATEGORY#Ideas", SK := "T#Ideas#0", created_at := "T",
          updated_at := none, status := "open", name := none,
          next_action := none, notes := none,
          original_text := "hello world", confidence := 92,
          category := "Ideas", embedding := Matcher.zeroVec },
      Matcher.Effect.indexVector "CATEGORY#Ideas" "T#Ideas#0"
        Matcher.zeroVec "Ideas" "" "open"] rfl
  exact ⟨h2.1, h2.2,
    h.2.2 exEnvQueryError exNamelessData (some "done") none "T" 0⟩
